import Mathlib

/-!
Shallow embedding of the invoice/stock ledger engine of `src/database.py`
(class `DatabaseManager`), the component specified as the CORE in `spec.md`.

Modelling conventions:
* SQLite REAL values are modelled as `ℚ` (the spec formulas are exact
  arithmetic; the claims under scrutiny are not about float rounding).
* One SQLite connection with `commit`/`rollback`: every ledger verb runs its
  statements against an in-progress state and either commits (returning the
  new `DB`) or rolls back (returning the original `DB` untouched), exactly as
  `add_invoice` / `update_invoice` / `delete_invoice` do with their
  `try`/`except`/`rollback` wrappers around a single uncommitted transaction.
* `AUTOINCREMENT` primary keys are modelled by counters in the state.
* Foreign keys are `ON` (`_enable_foreign_keys`): `invoice_items.invoice_id`
  referencing a missing invoice is a storage failure; `customers` and the
  `invoice_number` UNIQUE constraint are not modelled (no claim touches them;
  a violation would roll back exactly like the modelled failure paths).
* `hashlib.sha256(...).hexdigest()` is an opaque one-way digest; it is taken
  as an abstract function parameter `hash : String → String`.
-/

namespace NouraDB

/-- A row of the `products` table (`_create_tables`, src/database.py). -/
structure Product where
  id : Nat
  name : String
  description : String
  unit_price : ℚ
  cost_price : ℚ
  sale_price : ℚ
  stock : ℚ
  unit : String
  deriving Repr, DecidableEq

/-- The header fields of an invoice supplied by callers of
`add_invoice`/`update_invoice` (the `invoice` dict). -/
structure InvoiceHeader where
  invoice_number : String
  customer_id : Option Nat
  invoice_date : String
  due_date : String
  total_amount : ℚ
  status : String
  deriving Repr, DecidableEq

/-- A row of the `invoices` table. `created_at` is set on insert and never
touched by `update_invoice`. -/
structure InvoiceRow where
  id : Nat
  header : InvoiceHeader
  created_at : String
  deriving Repr, DecidableEq

/-- A line-item dict passed to `add_invoice`/`update_invoice`. `product_id`
is `none` for ad-hoc (custom) lines. -/
structure Item where
  product_id : Option Nat
  description : String
  quantity : ℚ
  unit_price : ℚ
  discount : ℚ
  line_total : ℚ
  deriving Repr, DecidableEq

/-- A row of the `invoice_items` table. -/
structure ItemRow where
  id : Nat
  invoice_id : Nat
  product_id : Option Nat
  description : String
  quantity : ℚ
  unit_price : ℚ
  discount : ℚ
  line_total : ℚ
  deriving Repr, DecidableEq

/-- The `product_id`/`quantity` projection used by the stock helpers
(`get_invoice_item_quantities` selects exactly these two columns). -/
structure ItemQty where
  product_id : Option Nat
  quantity : ℚ
  deriving Repr, DecidableEq

/-- The projection the stock helpers read off a full item dict
(`item.get("product_id")`, `float(item.get("quantity") or 0)`). -/
def Item.toQty (it : Item) : ItemQty :=
  ⟨it.product_id, it.quantity⟩

/-- The singleton `settings` row (id is fixed to 1 by the CHECK constraint,
so the key is left implicit). -/
structure SettingsRow where
  company_name : String
  company_phone : String
  company_address : String
  default_currency : String
  theme : String
  language : String
  max_discount : ℚ
  deriving Repr, DecidableEq

/-- A row of the `admin_users` table. -/
structure AdminUser where
  id : Nat
  username : String
  password_hash : String
  license_key : String
  active : Bool
  deriving Repr, DecidableEq

/-- Column lists of the six tables, `none` when the table does not exist yet
(`CREATE TABLE IF NOT EXISTS` creates it; `_migrate_schema` probes and
appends columns with `ALTER TABLE ... ADD COLUMN`). -/
structure Schema where
  customers : Option (List String)
  products : Option (List String)
  invoices : Option (List String)
  invoice_items : Option (List String)
  settings : Option (List String)
  admin_users : Option (List String)
  deriving Repr, DecidableEq

/-- The persistent store. `settings` is an `Option` because the CHECK
constraint `id = 1` plus the primary key admit at most one row. -/
structure DB where
  schema : Schema
  products : List Product
  invoices : List InvoiceRow
  invoice_items : List ItemRow
  settings : Option SettingsRow
  admin_users : List AdminUser
  next_invoice_id : Nat
  next_item_id : Nat
  next_admin_id : Nat
  deriving Repr, DecidableEq

/-- The failure taxonomy of the ledger engine (spec §4.5). The Python code
raises `ValueError` with a formatted message; `insufficient` carries the
product name, available stock and requested quantity that
`_validate_stock_levels` interpolates into its message. -/
inductive LedgerError where
  | productNotFound
  | insufficient (product : String) (available : ℚ) (requested : ℚ)
  | storageFailure
  deriving Repr, DecidableEq

/-- `SELECT ... FROM products WHERE id=?` (first match wins, ids are a
primary key). -/
def findProduct (ps : List Product) (pid : Nat) : Option Product :=
  ps.find? (fun p => p.id == pid)

/-- `DatabaseManager._validate_stock_levels`: walk the items in order; skip
custom lines (`product_id is None`); fail with `productNotFound` when the
referenced product row is missing; fail with `insufficient` when
`stock < quantity`. -/
def validate_stock_levels (ps : List Product) : List ItemQty → Except LedgerError Unit
  | [] => .ok ()
  | it :: rest =>
    match it.product_id with
    | none => validate_stock_levels ps rest
    | some pid =>
      match findProduct ps pid with
      | none => .error .productNotFound
      | some p =>
        if p.stock < it.quantity then
          .error (.insufficient p.name p.stock it.quantity)
        else
          validate_stock_levels ps rest

/-- One `UPDATE products SET stock = stock + ? WHERE id=?` statement. -/
def bumpStock (ps : List Product) (pid : Nat) (delta : ℚ) : List Product :=
  ps.map (fun p => if p.id == pid then { p with stock := p.stock + delta } else p)

/-- `DatabaseManager._apply_stock_changes`: per item, skip custom lines and
otherwise add `multiplier * quantity` to the referenced product's stock. -/
def apply_stock_changes (ps : List Product) (items : List ItemQty) (multiplier : ℚ) :
    List Product :=
  items.foldl
    (fun acc it =>
      match it.product_id with
      | none => acc
      | some pid => bumpStock acc pid (multiplier * it.quantity))
    ps

/-- `DatabaseManager.get_invoice_item_quantities`. -/
def get_invoice_item_quantities (db : DB) (invoice_id : Nat) : List ItemQty :=
  (db.invoice_items.filter (fun it => it.invoice_id == invoice_id)).map
    (fun it => ⟨it.product_id, it.quantity⟩)

/-- The loop inserting the item rows of one invoice (`INSERT INTO
invoice_items ...` per item), threading the autoincrement counter. -/
def insertItems (rows : List ItemRow) (nextId : Nat) (invoice_id : Nat)
    (items : List Item) : List ItemRow × Nat :=
  items.foldl
    (fun acc it =>
      (acc.1 ++ [⟨acc.2, invoice_id, it.product_id, it.description, it.quantity,
                  it.unit_price, it.discount, it.line_total⟩],
       acc.2 + 1))
    (rows, nextId)

/-- `DatabaseManager.add_invoice`: validate first, then insert the header,
the item rows, debit stock, and commit; any failure rolls everything back
(the returned state is the untouched original). Returns the new invoice id
on success. `now` is the `datetime.utcnow().isoformat()` timestamp. -/
def add_invoice (db : DB) (invoice : InvoiceHeader) (items : List Item)
    (now : String) : Except LedgerError Nat × DB :=
  match validate_stock_levels db.products (items.map Item.toQty) with
  | .error e => (.error e, db)
  | .ok _ =>
    let invoice_id := db.next_invoice_id
    let row : InvoiceRow := ⟨invoice_id, invoice, now⟩
    let inserted := insertItems db.invoice_items db.next_item_id invoice_id items
    let ps := apply_stock_changes db.products (items.map Item.toQty) (-1)
    (.ok invoice_id,
     { db with
        invoices := db.invoices ++ [row]
        next_invoice_id := invoice_id + 1
        invoice_items := inserted.1
        next_item_id := inserted.2
        products := ps })

/-- `DatabaseManager.update_invoice`: credit the current item set back,
validate the new set against the replenished stock, then overwrite the
header, replace the item rows, debit stock for the new set and commit;
any failure (validation, or the foreign-key violation of inserting item
rows for a nonexistent invoice) rolls the whole transaction back. -/
def update_invoice (db : DB) (invoice_id : Nat) (invoice : InvoiceHeader)
    (items : List Item) : Except LedgerError Unit × DB :=
  let previous_items := get_invoice_item_quantities db invoice_id
  let ps1 := apply_stock_changes db.products previous_items 1
  match validate_stock_levels ps1 (items.map Item.toQty) with
  | .error e => (.error e, db)
  | .ok _ =>
    if items.isEmpty ∨ db.invoices.any (fun r => r.id == invoice_id) then
      let invs := db.invoices.map
        (fun r => if r.id == invoice_id then ⟨r.id, invoice, r.created_at⟩ else r)
      let cleared := db.invoice_items.filter (fun it => !(it.invoice_id == invoice_id))
      let inserted := insertItems cleared db.next_item_id invoice_id items
      let ps2 := apply_stock_changes ps1 (items.map Item.toQty) (-1)
      (.ok (),
       { db with
          invoices := invs
          invoice_items := inserted.1
          next_item_id := inserted.2
          products := ps2 })
    else
      (.error .storageFailure, db)

/-- `DatabaseManager.delete_invoice`: credit stock for the invoice's items,
delete the invoice row; `ON DELETE CASCADE` removes the item rows of the
deleted invoice. -/
def delete_invoice (db : DB) (invoice_id : Nat) : DB :=
  let items := get_invoice_item_quantities db invoice_id
  let ps := apply_stock_changes db.products items 1
  let existed := db.invoices.any (fun r => r.id == invoice_id)
  { db with
      products := ps
      invoices := db.invoices.filter (fun r => !(r.id == invoice_id))
      invoice_items :=
        if existed then
          db.invoice_items.filter (fun it => !(it.invoice_id == invoice_id))
        else
          db.invoice_items }

/-- `DatabaseManager.get_invoice`: `SELECT ... FROM invoices WHERE id=?`. -/
def get_invoice (db : DB) (invoice_id : Nat) : Option InvoiceRow :=
  db.invoices.find? (fun r => r.id == invoice_id)

/-- The in-memory defaults `get_settings` falls back to when the singleton
row is somehow absent (src/database.py lines 647-658). -/
def fallbackSettings : SettingsRow :=
  ⟨"Noura", "", "", "USD", "dark", "en", 0⟩

/-- `DatabaseManager.get_settings`: return the singleton row, or the
defensive in-memory defaults without mutating storage. -/
def get_settings (db : DB) : SettingsRow :=
  match db.settings with
  | none => fallbackSettings
  | some s => s

/-- `DatabaseManager.save_settings`: `INSERT ... VALUES (1, ...) ON
CONFLICT(id) DO UPDATE SET ...` — an upsert of the singleton row. -/
def save_settings (db : DB) (s : SettingsRow) : DB :=
  { db with settings := some s }

/-- Number of rows of the `settings` table (at most one can exist because
of the `id = 1` CHECK constraint on the primary key). -/
def settingsCount (db : DB) : Nat :=
  match db.settings with
  | none => 0
  | some _ => 1

/-- `DatabaseManager.authenticate_admin`: hash the supplied password and
look for a row matching username, hash, license key and `is_active=1`. -/
def authenticate_admin (hash : String → String) (db : DB)
    (username password license_key : String) : Bool :=
  db.admin_users.any
    (fun r =>
      r.username == username && r.password_hash == hash password &&
        r.license_key == license_key && r.active)

/-- Column list of `CREATE TABLE customers`. -/
def customersCols : List String :=
  ["id", "name", "email", "phone", "address", "tax_number", "created_at"]

/-- Column list of `CREATE TABLE products` (current shape, including the
columns older versions lacked). -/
def productsCols : List String :=
  ["id", "name", "description", "unit_price", "cost_price", "sale_price",
   "stock", "unit", "created_at"]

/-- Column list of `CREATE TABLE invoices`. -/
def invoicesCols : List String :=
  ["id", "invoice_number", "customer_id", "invoice_date", "due_date",
   "total_amount", "status", "created_at"]

/-- Column list of `CREATE TABLE invoice_items`. -/
def invoiceItemsCols : List String :=
  ["id", "invoice_id", "product_id", "description", "quantity", "unit_price",
   "discount", "line_total"]

/-- Column list of `CREATE TABLE settings`. -/
def settingsCols : List String :=
  ["id", "company_name", "company_phone", "company_address",
   "default_currency", "theme", "language", "max_discount"]

/-- Column list of `CREATE TABLE admin_users`. -/
def adminUsersCols : List String :=
  ["id", "username", "password_hash", "license_key", "is_active"]

/-- `CREATE TABLE IF NOT EXISTS`: keep an existing table untouched, create
a missing one with the current column list. -/
def ensureTable (t : Option (List String)) (cols : List String) :
    Option (List String) :=
  match t with
  | none => some cols
  | some existing => some existing

/-- `DatabaseManager._create_tables`. -/
def create_tables (db : DB) : DB :=
  { db with
      schema :=
        { customers := ensureTable db.schema.customers customersCols
          products := ensureTable db.schema.products productsCols
          invoices := ensureTable db.schema.invoices invoicesCols
          invoice_items := ensureTable db.schema.invoice_items invoiceItemsCols
          settings := ensureTable db.schema.settings settingsCols
          admin_users := ensureTable db.schema.admin_users adminUsersCols } }

/-- The default administrator `_migrate_schema` seeds when `admin_users`
is empty: username `admin`, hash of `admin`, license `DEMO-KEY`, active. -/
def defaultAdmin (hash : String → String) (id : Nat) : AdminUser :=
  ⟨id, "admin", hash "admin", "DEMO-KEY", true⟩

/-- First block of `_migrate_schema`: probe `PRAGMA table_info(products)`
once, then add `stock` if missing, and add `cost_price`/`sale_price` (with
the one-off `sale_price = unit_price WHERE sale_price = 0` backfill) if
`cost_price` is missing — both checks against the same snapshot. -/
def migrate_products (db0 : DB) : DB :=
  let pcols := db0.schema.products.getD []
  let db1 :=
    if "stock" ∈ pcols then db0
    else
      { db0 with
          schema :=
            { db0.schema with
                products := some (db0.schema.products.getD [] ++ ["stock"]) } }
  if "cost_price" ∈ pcols then db1
  else
    { db1 with
        schema :=
          { db1.schema with
              products :=
                some (db1.schema.products.getD [] ++
                  ["cost_price", "sale_price"]) }
        products :=
          db1.products.map
            (fun p =>
              if p.sale_price == 0 then { p with sale_price := p.unit_price }
              else p) }

/-- Second block of `_migrate_schema`: add `invoice_items.discount` if
missing. -/
def migrate_items (db : DB) : DB :=
  if "discount" ∈ db.schema.invoice_items.getD [] then db
  else
    { db with
        schema :=
          { db.schema with
              invoice_items :=
                some (db.schema.invoice_items.getD [] ++ ["discount"]) } }

/-- Third block of `_migrate_schema`: add `settings.max_discount` if
missing. -/
def migrate_settings (db : DB) : DB :=
  if "max_discount" ∈ db.schema.settings.getD [] then db
  else
    { db with
        schema :=
          { db.schema with
              settings :=
                some (db.schema.settings.getD [] ++ ["max_discount"]) } }

/-- Last block of `_migrate_schema`: seed the default admin when the
`admin_users` table is empty. -/
def seed_admin (hash : String → String) (db : DB) : DB :=
  if db.admin_users.length == 0 then
    { db with
        admin_users := db.admin_users ++ [defaultAdmin hash db.next_admin_id]
        next_admin_id := db.next_admin_id + 1 }
  else
    db

/-- `DatabaseManager._migrate_schema`: the four blocks in source order. -/
def migrate_schema (hash : String → String) (db : DB) : DB :=
  seed_admin hash (migrate_settings (migrate_items (migrate_products db)))

/-- The defaults `_ensure_settings_row` inserts. -/
def defaultSettings : SettingsRow :=
  ⟨"Noura", "", "", "USD", "dark", "en", 0⟩

/-- `DatabaseManager._ensure_settings_row`: insert the singleton row with
defaults when it is absent. -/
def ensure_settings_row (db : DB) : DB :=
  match db.settings with
  | none => { db with settings := some defaultSettings }
  | some _ => db

/-- `DatabaseManager.__init__` after opening the connection: create tables,
migrate additively, guarantee the settings row. -/
def initializeDB (hash : String → String) (db : DB) : DB :=
  ensure_settings_row (migrate_schema hash (create_tables db))

/-- `ii.quantity * ii.unit_price` of one joined report row. -/
def item_gross (it : ItemRow) : ℚ :=
  it.quantity * it.unit_price

/-- `ii.quantity * IFNULL(p.cost_price, 0)` after the LEFT JOIN on
products: cost 0 for ad-hoc lines and for dangling product references. -/
def item_cost (ps : List Product) (it : ItemRow) : ℚ :=
  it.quantity *
    (match it.product_id with
     | none => 0
     | some pid =>
       match findProduct ps pid with
       | none => 0
       | some p => p.cost_price)

/-- `ii.quantity * ii.unit_price * (ii.discount / 100.0)`. -/
def item_discount_amt (it : ItemRow) : ℚ :=
  it.quantity * it.unit_price * (it.discount / 100)

/-- The `invoice_items JOIN invoices LEFT JOIN products` row source of the
income queries: each item row paired with its bucket key, inner-joined to
its invoice and filtered by the invoice-level predicate. -/
def report_rows (db : DB) (keep : InvoiceRow → Bool) (keyOf : InvoiceRow → String) :
    List (String × ItemRow) :=
  db.invoice_items.filterMap
    (fun it =>
      match db.invoices.find? (fun i => i.id == it.invoice_id) with
      | none => none
      | some i => if keep i then some (keyOf i, it) else none)

/-- First-occurrence deduplication of the bucket keys (`GROUP BY`). -/
def dedupKeys (rows : List (String × ItemRow)) : List String :=
  rows.foldl (fun acc r => if r.1 ∈ acc then acc else acc ++ [r.1]) []

/-- Insert into a descending-sorted list of strings (`ORDER BY ... DESC`). -/
def insertDesc (x : String) : List String → List String
  | [] => [x]
  | y :: ys => if y ≤ x then x :: y :: ys else y :: insertDesc x ys

/-- Insertion sort, descending. -/
def sortDesc : List String → List String
  | [] => []
  | x :: xs => insertDesc x (sortDesc xs)

/-- The shared shape of `daily_income` / `monthly_income` / `yearly_income`:
group the joined rows by bucket key, order keys descending, keep `limit`
buckets, and for each bucket return
`(key, gross, gross - cost - discount_amt)` with the three SUM aggregates
computed over the bucket's rows. -/
def group_income (db : DB) (keep : InvoiceRow → Bool)
    (keyOf : InvoiceRow → String) (limit : Nat) : List (String × ℚ × ℚ) :=
  let rows := report_rows db keep keyOf
  ((sortDesc (dedupKeys rows)).take limit).map
    (fun k =>
      let grp := (rows.filter (fun r => r.1 == k)).map (fun r => r.2)
      let gross := (grp.map item_gross).sum
      let cost := (grp.map (item_cost db.products)).sum
      let disc := (grp.map item_discount_amt).sum
      (k, gross, gross - cost - disc))

/-- `DatabaseManager.daily_income`: buckets are invoice dates, restricted to
dates at or after the cutoff `date('now', '-days day')` (ISO date strings
compare correctly as strings). -/
def daily_income (db : DB) (cutoff : String) (days : Nat) :
    List (String × ℚ × ℚ) :=
  group_income db (fun i => decide (cutoff ≤ i.header.invoice_date))
    (fun i => i.header.invoice_date) days

/-- `DatabaseManager.monthly_income`: buckets are
`strftime('%Y-%m', invoice_date)`, i.e. the first 7 characters of the ISO
date. -/
def monthly_income (db : DB) (months : Nat) : List (String × ℚ × ℚ) :=
  group_income db (fun _ => true) (fun i => i.header.invoice_date.take 7) months

/-- `DatabaseManager.yearly_income`: buckets are
`strftime('%Y', invoice_date)`, i.e. the first 4 characters. -/
def yearly_income (db : DB) (years : Nat) : List (String × ℚ × ℚ) :=
  group_income db (fun _ => true) (fun i => i.header.invoice_date.take 4) years

/-- Referential integrity of `invoice_items.invoice_id` (enforced by the
`PRAGMA foreign_keys = ON` foreign key to `invoices`). -/
def ItemsLinked (db : DB) : Prop :=
  ∀ it ∈ db.invoice_items, ∃ r ∈ db.invoices, r.id = it.invoice_id

instance (db : DB) : Decidable (ItemsLinked db) := by
  unfold ItemsLinked
  infer_instance

/-- Total quantity the item list holds against one product id. -/
def qtySum (items : List ItemQty) (pid : Nat) : ℚ :=
  ((items.filter (fun it => it.product_id == some pid)).map
    (fun it => it.quantity)).sum

/-! ### Shared example store for concrete evaluations -/

/-- The six tables exactly as `_create_tables` lays them out. -/
def exSchema : Schema :=
  ⟨some customersCols, some productsCols, some invoicesCols,
   some invoiceItemsCols, some settingsCols, some adminUsersCols⟩

/-- A product with 5 units in stock (unit price 10, cost price 4). -/
def exWidget : Product :=
  ⟨1, "Widget", "", 10, 4, 10, 5, "pc"⟩

/-- A freshly initialized store holding one product. -/
def exDB : DB :=
  ⟨exSchema, [exWidget], [], [], some defaultSettings,
   [⟨1, "admin", "2admin2", "DEMO-KEY", true⟩], 1, 1, 2⟩

/-- An invoice header draft. -/
def exHeader : InvoiceHeader :=
  ⟨"INV-1", none, "2024-01-02", "2024-02-02", 60, "Draft"⟩

/-- The store after `exDB` received invoice 1 (2 Widgets, leaving 3). -/
def exDB2 : DB :=
  ⟨exSchema, [{ exWidget with stock := 3 }], [⟨1, exHeader, "2024-01-02T00:00:00"⟩],
   [⟨1, 1, some 1, "w", 2, 10, 0, 20⟩], some defaultSettings,
   [⟨1, "admin", "2admin2", "DEMO-KEY", true⟩], 2, 2, 2⟩

/-- The caller-supplied payload of a stored item row (everything except
the generated row id and the owning invoice id). -/
def ItemRow.payload (r : ItemRow) : Item :=
  ⟨r.product_id, r.description, r.quantity, r.unit_price, r.discount, r.line_total⟩

/-- The item rows the insert loop of `add_invoice`/`update_invoice`
produces for one invoice, with consecutive generated ids. -/
def mkItemRows (nextId invoice_id : Nat) : List Item → List ItemRow
  | [] => []
  | it :: rest =>
    ⟨nextId, invoice_id, it.product_id, it.description, it.quantity,
     it.unit_price, it.discount, it.line_total⟩ ::
      mkItemRows (nextId + 1) invoice_id rest

/-- Reference composition for invoice editing, written from the spec's
words (§4.5 Update, §3 invariants): restore stock for the *current* item
set, validate the new set against the replenished levels, and on success
debit stock for the new set, overwrite the header, and replace the full
item set; on failure change nothing. -/
def update_spec (db : DB) (invoice_id : Nat) (invoice : InvoiceHeader)
    (items : List Item) : Option DB :=
  let credited := apply_stock_changes db.products
    (get_invoice_item_quantities db invoice_id) 1
  match validate_stock_levels credited (items.map Item.toQty) with
  | .error _ => none
  | .ok _ =>
    some { db with
      products := apply_stock_changes credited (items.map Item.toQty) (-1)
      invoices := db.invoices.map
        (fun r => if r.id == invoice_id then ⟨r.id, invoice, r.created_at⟩ else r)
      invoice_items :=
        (db.invoice_items.filter (fun it => !(it.invoice_id == invoice_id))) ++
          mkItemRows db.next_item_id invoice_id items
      next_item_id := db.next_item_id + items.length }

/-- The store shape `__init__` guarantees: all six tables exist, the
migrated columns are present, the settings singleton exists and at least
one admin row exists. -/
def Initialized (d : DB) : Prop :=
  (∃ c, d.schema.customers = some c) ∧
  (∃ c, d.schema.products = some c) ∧
  (∃ c, d.schema.invoices = some c) ∧
  (∃ c, d.schema.invoice_items = some c) ∧
  (∃ c, d.schema.settings = some c) ∧
  (∃ c, d.schema.admin_users = some c) ∧
  "stock" ∈ d.schema.products.getD [] ∧
  "cost_price" ∈ d.schema.products.getD [] ∧
  "discount" ∈ d.schema.invoice_items.getD [] ∧
  "max_discount" ∈ d.schema.settings.getD [] ∧
  (∃ s, d.settings = some s) ∧
  d.admin_users ≠ []

/-! ### Helper lemmas -/

/-- The witness of a successful `find?` satisfies the predicate. -/
theorem find?_property {α : Type} {p : α → Bool} {l : List α} {a : α}
    (h : l.find? p = some a) : p a = true := by
  have hp := List.find?_some h
  exact hp

/-- The witness of a successful `find?` is a member of the list. -/
theorem find?_member {α : Type} {p : α → Bool} {l : List α} {a : α}
    (h : l.find? p = some a) : a ∈ l := by
  have hp := List.mem_of_find?_eq_some h
  exact hp

/-- `find?` commutes with a map that does not change the predicate's
verdict (used for `UPDATE ... WHERE id=?` row rewrites). -/
theorem find?_map_comm {α : Type} (f : α → α) (p : α → Bool)
    (hf : ∀ a, p (f a) = p a) (l : List α) :
    (l.map f).find? p = (l.find? p).map f := by
  induction l with
  | nil => rfl
  | cons a tl ih =>
    simp only [List.map_cons, List.find?]
    rw [hf a]
    cases h : p a <;> simp [ih]

/-- Validation never fails on ad-hoc lines (`product_id is None`). -/
theorem validate_ok_of_adhoc (ps : List Product) (l : List ItemQty)
    (h : ∀ it ∈ l, it.product_id = none) :
    validate_stock_levels ps l = .ok () := by
  induction l with
  | nil => rfl
  | cons a tl ih =>
    have ha : a.product_id = none := h a (by simp)
    simp only [validate_stock_levels, ha]
    exact ih (fun it hit => h it (by simp [hit]))

/-- If every product reference resolves and some item asks for more than
its product's stock, `_validate_stock_levels` reports a stock-insufficiency
failure carrying that product's name, its stock, and the quantity. -/
theorem validate_error_of_insufficient (ps : List Product) (l : List ItemQty)
    (hres : ∀ it ∈ l, ∀ pid, it.product_id = some pid →
      ∃ p, findProduct ps pid = some p)
    (hbad : ∃ it ∈ l, ∃ pid p, it.product_id = some pid ∧
      findProduct ps pid = some p ∧ p.stock < it.quantity) :
    ∃ it ∈ l, ∃ pid p, it.product_id = some pid ∧
      findProduct ps pid = some p ∧ p.stock < it.quantity ∧
      validate_stock_levels ps l =
        .error (.insufficient p.name p.stock it.quantity) := by
  induction l with
  | nil => simp at hbad
  | cons a tl ih =>
    cases ha : a.product_id with
    | none =>
      obtain ⟨it, hit, pid, p, hpid, hfind, hlt⟩ := hbad
      have hit' : it ∈ tl := by
        rcases List.mem_cons.mp hit with h | h
        · subst h; rw [ha] at hpid; cases hpid
        · exact h
      obtain ⟨it2, hit2, pid2, p2, h1, h2, h3, h4⟩ :=
        ih (fun x hx => hres x (by simp [hx]))
          ⟨it, hit', pid, p, hpid, hfind, hlt⟩
      exact ⟨it2, by simp [hit2], pid2, p2, h1, h2, h3, by
        simpa [validate_stock_levels, ha] using h4⟩
    | some pid =>
      obtain ⟨p, hp⟩ := hres a (by simp) pid ha
      by_cases hlt : p.stock < a.quantity
      · exact ⟨a, by simp, pid, p, ha, hp, hlt, by
          simp [validate_stock_levels, ha, hp, hlt]⟩
      · obtain ⟨it, hit, pid', p', hpid, hfind, hqty⟩ := hbad
        have hit' : it ∈ tl := by
          rcases List.mem_cons.mp hit with h | h
          · subst h
            rw [ha] at hpid
            obtain rfl : pid = pid' := by injection hpid
            rw [hp] at hfind
            obtain rfl : p = p' := by injection hfind
            exact absurd hqty hlt
          · exact h
        obtain ⟨it2, hit2, pid2, p2, h1, h2, h3, h4⟩ :=
          ih (fun x hx => hres x (by simp [hx]))
            ⟨it, hit', pid', p', hpid, hfind, hqty⟩
        exact ⟨it2, by simp [hit2], pid2, p2, h1, h2, h3, by
          simpa [validate_stock_levels, ha, hp, hlt] using h4⟩

/-! ### Claims -/

/-- C1: the spec demands that any ledger operation whose stock debits would
take a product below zero is rejected in full, and `_validate_stock_levels`
documents the same intent; but validation checks each line against the
*current* stock independently, so an invoice with two lines of quantity 3
against a product stocked at 5 is accepted and leaves the stock at -1. -/
theorem add_invoice_aggregate_oversell :
    (add_invoice exDB exHeader
        [⟨some 1, "w", 3, 10, 0, 30⟩, ⟨some 1, "w", 3, 10, 0, 30⟩]
        "2024-01-02T00:00:00").1 = .ok 1 ∧
    findProduct (add_invoice exDB exHeader
        [⟨some 1, "w", 3, 10, 0, 30⟩, ⟨some 1, "w", 3, 10, 0, 30⟩]
        "2024-01-02T00:00:00").2.products 1 =
      some { exWidget with stock := -1 } ∧
    ¬ (0 : ℚ) ≤ -1 := by
  refine ⟨?_, ?_, by norm_num⟩
  · norm_num [add_invoice, validate_stock_levels, findProduct, exDB, exWidget,
      Item.toQty]
  · norm_num [add_invoice, validate_stock_levels, findProduct, exDB, exWidget,
      Item.toQty, apply_stock_changes, bumpStock, insertItems]

/-- C2: an invoice-create call containing an item whose quantity exceeds
the referenced product's current stock fails with a stock-insufficiency
error naming the product, its available stock and the requested quantity;
the store (stock, invoices, item rows) is exactly as before the call; and
items without a product reference are exempt: a call whose items are all
ad-hoc lines always passes stock validation. -/
theorem add_invoice_insufficient_rejected (db : DB) (invoice : InvoiceHeader)
    (items : List Item) (now : String)
    (hres : ∀ it ∈ items, ∀ pid, it.product_id = some pid →
      ∃ p, findProduct db.products pid = some p)
    (hbad : ∃ it ∈ items, ∃ pid p, it.product_id = some pid ∧
      findProduct db.products pid = some p ∧ p.stock < it.quantity) :
    (∃ it ∈ items, ∃ pid p, it.product_id = some pid ∧
      findProduct db.products pid = some p ∧ p.stock < it.quantity ∧
      (add_invoice db invoice items now).1 =
        .error (.insufficient p.name p.stock it.quantity)) ∧
    (add_invoice db invoice items now).2 = db ∧
    (∀ (db2 : DB) (inv2 : InvoiceHeader) (items2 : List Item) (now2 : String),
      (∀ it ∈ items2, it.product_id = none) →
      (add_invoice db2 inv2 items2 now2).1 = .ok db2.next_invoice_id) := by
  have hres' : ∀ it ∈ items.map Item.toQty, ∀ pid, it.product_id = some pid →
      ∃ p, findProduct db.products pid = some p := by
    intro it hit pid hpid
    obtain ⟨it0, hit0, rfl⟩ := List.mem_map.mp hit
    exact hres it0 hit0 pid hpid
  have hbad' : ∃ it ∈ items.map Item.toQty, ∃ pid p, it.product_id = some pid ∧
      findProduct db.products pid = some p ∧ p.stock < it.quantity := by
    obtain ⟨it, hit, pid, p, h1, h2, h3⟩ := hbad
    exact ⟨it.toQty, List.mem_map.mpr ⟨it, hit, rfl⟩, pid, p, h1, h2, h3⟩
  obtain ⟨it, hit, pid, p, h1, h2, h3, h4⟩ :=
    validate_error_of_insufficient db.products (items.map Item.toQty) hres' hbad'
  obtain ⟨it0, hit0, rfl⟩ := List.mem_map.mp hit
  have h1' : it0.product_id = some pid := h1
  have h3' : p.stock < it0.quantity := h3
  have h4' : validate_stock_levels db.products (items.map Item.toQty) =
      .error (.insufficient p.name p.stock it0.quantity) := h4
  refine ⟨⟨it0, hit0, pid, p, h1', h2, h3', ?_⟩, ?_, ?_⟩
  · simp [add_invoice, h4']
  · simp [add_invoice, h4']
  · intro db2 inv2 items2 now2 hadhoc
    have : validate_stock_levels db2.products (items2.map Item.toQty) = .ok () :=
      validate_ok_of_adhoc _ _ (by
        intro it hit
        obtain ⟨it0, hit0, rfl⟩ := List.mem_map.mp hit
        exact hadhoc it0 hit0)
    simp [add_invoice, this]

/-- Witness for C2 at a concrete input: one line requesting 8 Widgets when
only 5 are stocked. -/
theorem add_invoice_insufficient_rejected_witness :
    (add_invoice exDB exHeader [⟨some 1, "w", 8, 10, 0, 80⟩] "t").2 = exDB := by
  refine (add_invoice_insufficient_rejected exDB exHeader
    [⟨some 1, "w", 8, 10, 0, 80⟩] "t" ?_ ?_).2.1
  · intro it hit pid hpid
    simp only [List.mem_singleton] at hit
    subst hit
    simp only [Option.some.injEq] at hpid
    subst hpid
    exact ⟨exWidget, by norm_num [findProduct, exDB, exWidget]⟩
  · exact ⟨⟨some 1, "w", 8, 10, 0, 80⟩, by simp, 1, exWidget,
      rfl, by norm_num [findProduct, exDB, exWidget], by norm_num [exWidget]⟩

/-- C3: an invoice update whose new item set fails validation (checked
against the stock replenished with the old items) fails as a whole, and the
post-call store — stock levels included — is exactly the store from before
the call: the rollback also undoes the replenishment credit. -/
theorem update_invoice_failed_validation_rolls_back (db : DB)
    (invoice_id : Nat) (invoice : InvoiceHeader) (items : List Item)
    (e : LedgerError)
    (h : validate_stock_levels
        (apply_stock_changes db.products
          (get_invoice_item_quantities db invoice_id) 1)
        (items.map Item.toQty) = .error e) :
    update_invoice db invoice_id invoice items = (.error e, db) ∧
    (update_invoice db invoice_id invoice items).2.products = db.products ∧
    (update_invoice db invoice_id invoice items).2.invoices = db.invoices ∧
    (update_invoice db invoice_id invoice items).2.invoice_items =
      db.invoice_items := by
  have h1 : update_invoice db invoice_id invoice items = (.error e, db) := by
    simp [update_invoice, h]
  exact ⟨h1, by rw [h1], by rw [h1], by rw [h1]⟩

/-- Witness for C3: updating invoice 1 of `exDB2` to 99 Widgets fails
(replenished stock is 5) and leaves the store untouched. -/
theorem update_invoice_failed_validation_rolls_back_witness :
    update_invoice exDB2 1 exHeader [⟨some 1, "w", 99, 10, 0, 990⟩] =
      (.error (.insufficient "Widget" 5 99), exDB2) :=
  (update_invoice_failed_validation_rolls_back exDB2 1 exHeader
    [⟨some 1, "w", 99, 10, 0, 990⟩] (.insufficient "Widget" 5 99)
    (by norm_num [validate_stock_levels, apply_stock_changes, bumpStock,
      get_invoice_item_quantities, findProduct, exDB2, exWidget, Item.toQty])).1

/-- `bumpStock` rewrites the found row's stock and nothing else. -/
theorem findProduct_bumpStock (ps : List Product) (q pid : Nat) (d : ℚ) :
    findProduct (bumpStock ps q d) pid =
      (findProduct ps pid).map
        (fun p => if p.id == q then { p with stock := p.stock + d } else p) := by
  unfold findProduct bumpStock
  exact find?_map_comm _ _
    (fun p => by by_cases h : (p.id == q) = true <;> simp [h]) ps

/-- `_apply_stock_changes` moves each product's stock by `multiplier` times
the total quantity the item list holds against it, and changes nothing
else about the product rows. -/
theorem findProduct_apply_stock_changes (items : List ItemQty)
    (ps : List Product) (m : ℚ) (pid : Nat) :
    findProduct (apply_stock_changes ps items m) pid =
      (findProduct ps pid).map
        (fun p => { p with stock := p.stock + m * qtySum items pid }) := by
  induction items generalizing ps with
  | nil =>
    simp only [apply_stock_changes, List.foldl_nil, qtySum, List.filter_nil,
      List.map_nil, List.sum_nil, mul_zero]
    cases h : findProduct ps pid <;> simp [h]
  | cons a tl ih =>
    cases ha : a.product_id with
    | none =>
      have hsum : qtySum (a :: tl) pid = qtySum tl pid := by
        simp [qtySum, ha]
      have hstep : apply_stock_changes ps (a :: tl) m =
          apply_stock_changes ps tl m := by
        simp [apply_stock_changes, ha]
      rw [hstep, ih, hsum]
    | some q =>
      have hstep : apply_stock_changes ps (a :: tl) m =
          apply_stock_changes (bumpStock ps q (m * a.quantity)) tl m := by
        simp [apply_stock_changes, ha]
      rw [hstep, ih, findProduct_bumpStock, Option.map_map]
      by_cases hq : q = pid
      · rcases hq with rfl
        have hsum : qtySum (a :: tl) q = a.quantity + qtySum tl q := by
          simp [qtySum, ha]
        cases h : findProduct ps q with
        | none => simp
        | some p =>
          have h' : List.find? (fun x => x.id == q) ps = some p := h
          have hpid0 := find?_property h'
          have hpid : (p.id == q) = true := hpid0
          have harith : p.stock + m * a.quantity + m * qtySum tl q =
              p.stock + m * (a.quantity + qtySum tl q) := by ring
          have hpe : p.id = q := by simpa using hpid
          simp [Function.comp, hpe, hsum, harith]
      · have hne : (a.product_id == some pid) = false := by
          rw [ha]
          exact beq_eq_false_iff_ne.mpr (by simpa using hq)
        have hsum : qtySum (a :: tl) pid = qtySum tl pid := by
          simp [qtySum, hne]
        cases h : findProduct ps pid with
        | none => simp
        | some p =>
          have h' : List.find? (fun x => x.id == pid) ps = some p := h
          have hpid0 := find?_property h'
          have hpid : (p.id == pid) = true := hpid0
          have hpe : ¬ p.id = q := by
            have hp : p.id = pid := by simpa using hpid
            rw [hp]
            exact fun hc => hq hc.symm
          simp [Function.comp, hpe, hsum]

/-- C5: deleting an existing invoice credits every product's stock by the
total quantity the invoice's items held against it, removes the invoice row
and (cascade) all of its item rows, and a subsequent fetch by id reports
not-found. -/
theorem delete_invoice_spec (db : DB) (invoice_id : Nat) (row : InvoiceRow)
    (hmem : get_invoice db invoice_id = some row) :
    delete_invoice db invoice_id =
      { db with
          products := apply_stock_changes db.products
            (get_invoice_item_quantities db invoice_id) 1
          invoices := db.invoices.filter (fun r => !(r.id == invoice_id))
          invoice_items :=
            db.invoice_items.filter (fun it => !(it.invoice_id == invoice_id)) } ∧
    get_invoice (delete_invoice db invoice_id) invoice_id = none ∧
    (delete_invoice db invoice_id).invoice_items.filter
      (fun it => it.invoice_id == invoice_id) = [] ∧
    (∀ pid p, findProduct db.products pid = some p →
      findProduct (delete_invoice db invoice_id).products pid =
        some { p with
          stock := p.stock + qtySum (get_invoice_item_quantities db invoice_id) pid }) := by
  have hmem' : db.invoices.find? (fun r => r.id == invoice_id) = some row := hmem
  have hprop := find?_property hmem'
  have hexisted : db.invoices.any (fun r => r.id == invoice_id) = true :=
    List.any_eq_true.mpr ⟨row, find?_member hmem', hprop⟩
  have heq : delete_invoice db invoice_id =
      { db with
          products := apply_stock_changes db.products
            (get_invoice_item_quantities db invoice_id) 1
          invoices := db.invoices.filter (fun r => !(r.id == invoice_id))
          invoice_items :=
            db.invoice_items.filter (fun it => !(it.invoice_id == invoice_id)) } := by
    simp [delete_invoice, hexisted]
  refine ⟨heq, ?_, ?_, ?_⟩
  · rw [heq]
    simp only [get_invoice]
    rw [List.find?_eq_none]
    intro r hr
    simpa using (List.mem_filter.mp hr).2
  · rw [heq]
    simp only []
    rw [List.filter_eq_nil_iff]
    intro it hit
    simpa using (List.mem_filter.mp hit).2
  · intro pid p hp
    rw [heq]
    simp only []
    rw [findProduct_apply_stock_changes, hp]
    simp

/-- Witness for C5: deleting invoice 1 of `exDB2` returns the 2 Widgets and
removes the invoice and its item row. -/
theorem delete_invoice_spec_witness :
    get_invoice (delete_invoice exDB2 1) 1 = none :=
  (delete_invoice_spec exDB2 1 ⟨1, exHeader, "2024-01-02T00:00:00"⟩
    (by norm_num [get_invoice, exDB2])).2.1

/-- C10: deleting an invoice id that does not exist completes (the modelled
operation is total: no statement of `delete_invoice` can fail on it) and
changes nothing: under referential integrity there are no item rows for the
id, so zero stock credits are applied and zero rows are deleted. -/
theorem delete_invoice_missing_noop (db : DB) (invoice_id : Nat)
    (hlink : ItemsLinked db)
    (hmiss : get_invoice db invoice_id = none) :
    delete_invoice db invoice_id = db := by
  have hnone : ∀ r ∈ db.invoices, ¬(r.id == invoice_id) = true :=
    List.find?_eq_none.mp hmiss
  have hitems : db.invoice_items.filter
      (fun it => it.invoice_id == invoice_id) = [] := by
    rw [List.filter_eq_nil_iff]
    intro it hit
    obtain ⟨r, hr, hrid⟩ := hlink it hit
    rw [← hrid]
    exact hnone r hr
  have hany : db.invoices.any (fun r => r.id == invoice_id) = false := by
    rw [Bool.eq_false_iff]
    intro hc
    obtain ⟨r, hr, hp⟩ := List.any_eq_true.mp hc
    exact hnone r hr hp
  have hfilter : db.invoices.filter (fun r => !(r.id == invoice_id)) =
      db.invoices :=
    List.filter_eq_self.mpr (fun r hr => by simpa using hnone r hr)
  simp [delete_invoice, get_invoice_item_quantities, hitems, hany, hfilter,
    apply_stock_changes]

/-- Witness for C10: `exDB2` has no invoice 7, so deleting it is a no-op. -/
theorem delete_invoice_missing_noop_witness :
    delete_invoice exDB2 7 = exDB2 :=
  delete_invoice_missing_noop exDB2 7
    (by
      intro it hit
      simp only [exDB2, List.mem_singleton] at hit
      exact ⟨⟨1, exHeader, "2024-01-02T00:00:00"⟩, by simp [exDB2], by
        rw [hit]⟩)
    (by norm_num [get_invoice, exDB2])

/-- C7: saving settings and reading them back returns exactly the saved
values for every field, and the singleton row exists — one row before the
save (given an initialized store) and one row after. -/
theorem settings_roundtrip (db : DB) (s : SettingsRow)
    (h : db.settings.isSome) :
    get_settings (save_settings db s) = s ∧
    settingsCount db = 1 ∧
    settingsCount (save_settings db s) = 1 := by
  refine ⟨rfl, ?_, rfl⟩
  obtain ⟨s0, hs0⟩ := Option.isSome_iff_exists.mp h
  simp [settingsCount, hs0]

/-- Witness for C7 at a concrete settings value. -/
theorem settings_roundtrip_witness :
    get_settings (save_settings exDB ⟨"Acme", "1", "2", "EUR", "light", "ar", 15⟩) =
      ⟨"Acme", "1", "2", "EUR", "light", "ar", 15⟩ :=
  (settings_roundtrip exDB ⟨"Acme", "1", "2", "EUR", "light", "ar", 15⟩
    (by simp [exDB])).1

/-- C8: `authenticate_admin` succeeds exactly when some stored row matches
the supplied username, the digest of the supplied password, and the
supplied license key, and is flagged active — no partial match succeeds. -/
theorem authenticate_admin_iff (hash : String → String) (db : DB)
    (username password license_key : String) :
    authenticate_admin hash db username password license_key = true ↔
      ∃ r ∈ db.admin_users, r.username = username ∧
        r.password_hash = hash password ∧
        r.license_key = license_key ∧ r.active = true := by
  simp [authenticate_admin, List.any_eq_true, Bool.and_eq_true, beq_iff_eq,
    and_assoc]

/-- The insert loop appends exactly the constructed rows and advances the
id counter by the number of items. -/
theorem insertItems_eq (items : List Item) (rows : List ItemRow)
    (nextId invoice_id : Nat) :
    insertItems rows nextId invoice_id items =
      (rows ++ mkItemRows nextId invoice_id items, nextId + items.length) := by
  induction items generalizing rows nextId with
  | nil => simp [insertItems, mkItemRows]
  | cons it tl ih =>
    have hstep : insertItems rows nextId invoice_id (it :: tl) =
        insertItems (rows ++ [⟨nextId, invoice_id, it.product_id, it.description,
          it.quantity, it.unit_price, it.discount, it.line_total⟩])
          (nextId + 1) invoice_id tl := rfl
    rw [hstep, ih]
    refine Prod.ext ?_ ?_
    · simp [mkItemRows]
    · simp [mkItemRows]
      omega

/-- Projecting the generated rows back to their caller payload returns the
item list unchanged. -/
theorem mkItemRows_payload (items : List Item) (nextId invoice_id : Nat) :
    (mkItemRows nextId invoice_id items).map ItemRow.payload = items := by
  induction items generalizing nextId with
  | nil => rfl
  | cons it tl ih => simp [mkItemRows, ItemRow.payload, ih]

/-- Every generated row belongs to the invoice being written. -/
theorem mkItemRows_invoice_id (items : List Item) (nextId invoice_id : Nat) :
    ∀ r ∈ mkItemRows nextId invoice_id items, r.invoice_id = invoice_id := by
  induction items generalizing nextId with
  | nil => simp [mkItemRows]
  | cons it tl ih =>
    intro r hr
    rcases List.mem_cons.mp hr with h | h
    · subst h; rfl
    · exact ih _ r h

/-- C4: a successful invoice update equals the spec's reference
composition (credit the old item set, validate and debit the new one,
replace header and full item set): same result as `update_spec`, stock
reflecting both the credit and the debit, the header overwritten in place
(creation timestamp kept), the invoice's stored item rows carrying exactly
the new payloads, and other invoices' item rows untouched. -/
theorem update_invoice_refines_spec (db : DB) (invoice_id : Nat)
    (invoice : InvoiceHeader) (items : List Item) (row : InvoiceRow)
    (hmem : get_invoice db invoice_id = some row)
    (hok : (update_invoice db invoice_id invoice items).1 = .ok ()) :
    update_spec db invoice_id invoice items =
      some (update_invoice db invoice_id invoice items).2 ∧
    (update_invoice db invoice_id invoice items).2.products =
      apply_stock_changes
        (apply_stock_changes db.products
          (get_invoice_item_quantities db invoice_id) 1)
        (items.map Item.toQty) (-1) ∧
    get_invoice (update_invoice db invoice_id invoice items).2 invoice_id =
      some ⟨invoice_id, invoice, row.created_at⟩ ∧
    ((update_invoice db invoice_id invoice items).2.invoice_items.filter
        (fun it => it.invoice_id == invoice_id)).map ItemRow.payload = items ∧
    (update_invoice db invoice_id invoice items).2.invoice_items.filter
        (fun it => !(it.invoice_id == invoice_id)) =
      db.invoice_items.filter (fun it => !(it.invoice_id == invoice_id)) := by
  have hmem' : db.invoices.find? (fun r => r.id == invoice_id) = some row := hmem
  have hprop := find?_property hmem'
  have hrowid : row.id = invoice_id := by simpa using hprop
  have hany : db.invoices.any (fun r => r.id == invoice_id) = true :=
    List.any_eq_true.mpr ⟨row, find?_member hmem', hprop⟩
  cases hv : validate_stock_levels
      (apply_stock_changes db.products
        (get_invoice_item_quantities db invoice_id) 1)
      (items.map Item.toQty) with
  | error e =>
    exfalso
    rw [show update_invoice db invoice_id invoice items = (.error e, db) from by
      simp [update_invoice, hv]] at hok
    cases hok
  | ok u =>
    cases u
    have hupd : update_invoice db invoice_id invoice items =
        (.ok (),
         { db with
            invoices := db.invoices.map
              (fun r => if r.id == invoice_id then ⟨r.id, invoice, r.created_at⟩
                else r)
            invoice_items :=
              (db.invoice_items.filter
                (fun it => !(it.invoice_id == invoice_id))) ++
                mkItemRows db.next_item_id invoice_id items
            next_item_id := db.next_item_id + items.length
            products := apply_stock_changes
              (apply_stock_changes db.products
                (get_invoice_item_quantities db invoice_id) 1)
              (items.map Item.toQty) (-1) }) := by
      simp only [update_invoice, hv]
      rw [if_pos (Or.inr hany), insertItems_eq]
    refine ⟨?_, ?_, ?_, ?_, ?_⟩
    · rw [hupd]
      simp only [update_spec, hv]
    · rw [hupd]
    · rw [hupd]
      simp only [get_invoice]
      rw [find?_map_comm _ _
        (fun r => by by_cases h : (r.id == invoice_id) = true <;> simp [h]),
        hmem']
      simp [hprop, hrowid]
    · rw [hupd]
      simp only []
      rw [List.filter_append]
      have h1 : (db.invoice_items.filter
          (fun it => !(it.invoice_id == invoice_id))).filter
            (fun it => it.invoice_id == invoice_id) = [] := by
        rw [List.filter_eq_nil_iff]
        intro it hit
        simpa using (List.mem_filter.mp hit).2
      have h2 : (mkItemRows db.next_item_id invoice_id items).filter
          (fun it => it.invoice_id == invoice_id) =
            mkItemRows db.next_item_id invoice_id items :=
        List.filter_eq_self.mpr (fun r hr => by
          simp [mkItemRows_invoice_id items db.next_item_id invoice_id r hr])
      rw [h1, h2, List.nil_append, mkItemRows_payload]
    · rw [hupd]
      simp only []
      rw [List.filter_append]
      have h1 : (db.invoice_items.filter
          (fun it => !(it.invoice_id == invoice_id))).filter
            (fun it => !(it.invoice_id == invoice_id)) =
          db.invoice_items.filter (fun it => !(it.invoice_id == invoice_id)) :=
        List.filter_eq_self.mpr (fun r hr => (List.mem_filter.mp hr).2)
      have h2 : (mkItemRows db.next_item_id invoice_id items).filter
          (fun it => !(it.invoice_id == invoice_id)) = [] := by
        rw [List.filter_eq_nil_iff]
        intro it hit
        simp [mkItemRows_invoice_id items db.next_item_id invoice_id it hit]
      rw [h1, h2, List.append_nil]

/-- Witness for C4: updating invoice 1 of `exDB2` from 2 to 4 Widgets
succeeds (replenished stock 5 covers 4) and agrees with the reference
composition. -/
theorem update_invoice_refines_spec_witness :
    update_spec exDB2 1 exHeader [⟨some 1, "w", 4, 10, 0, 40⟩] =
      some (update_invoice exDB2 1 exHeader [⟨some 1, "w", 4, 10, 0, 40⟩]).2 :=
  (update_invoice_refines_spec exDB2 1 exHeader [⟨some 1, "w", 4, 10, 0, 40⟩]
    ⟨1, exHeader, "2024-01-02T00:00:00"⟩
    (by norm_num [get_invoice, exDB2])
    (by norm_num [update_invoice, validate_stock_levels, apply_stock_changes,
      bumpStock, get_invoice_item_quantities, findProduct, exDB2, exWidget,
      Item.toQty, insertItems])).1

/-- `CREATE TABLE IF NOT EXISTS` always leaves the table present. -/
theorem ensureTable_some (t : Option (List String)) (cols : List String) :
    ∃ c, ensureTable t cols = some c := by
  cases t <;> exact ⟨_, rfl⟩

/-- `_create_tables` leaves every table present and touches no data. -/
theorem create_tables_spec (d : DB) :
    (∃ c, (create_tables d).schema.customers = some c) ∧
    (∃ c, (create_tables d).schema.products = some c) ∧
    (∃ c, (create_tables d).schema.invoices = some c) ∧
    (∃ c, (create_tables d).schema.invoice_items = some c) ∧
    (∃ c, (create_tables d).schema.settings = some c) ∧
    (∃ c, (create_tables d).schema.admin_users = some c) ∧
    (create_tables d).settings = d.settings ∧
    (create_tables d).admin_users = d.admin_users :=
  ⟨ensureTable_some _ _, ensureTable_some _ _, ensureTable_some _ _,
   ensureTable_some _ _, ensureTable_some _ _, ensureTable_some _ _, rfl, rfl⟩

/-- `_create_tables` is a no-op on a store whose tables all exist. -/
theorem create_tables_id (d : DB)
    (h1 : ∃ c, d.schema.customers = some c)
    (h2 : ∃ c, d.schema.products = some c)
    (h3 : ∃ c, d.schema.invoices = some c)
    (h4 : ∃ c, d.schema.invoice_items = some c)
    (h5 : ∃ c, d.schema.settings = some c)
    (h6 : ∃ c, d.schema.admin_users = some c) :
    create_tables d = d := by
  obtain ⟨c1, e1⟩ := h1
  obtain ⟨c2, e2⟩ := h2
  obtain ⟨c3, e3⟩ := h3
  obtain ⟨c4, e4⟩ := h4
  obtain ⟨c5, e5⟩ := h5
  obtain ⟨c6, e6⟩ := h6
  cases d with
  | mk sch ps invs iis st adm n1 n2 n3 =>
    cases sch with
    | mk f1 f2 f3 f4 f5 f6 =>
      simp only [] at e1 e2 e3 e4 e5 e6
      subst e1 e2 e3 e4 e5 e6
      simp [create_tables, ensureTable]

/-- The products migration block guarantees the `stock` and `cost_price`
columns, keeps the products table present, and touches no other table and
no settings/admin data. -/
theorem migrate_products_spec (d : DB) :
    "stock" ∈ (migrate_products d).schema.products.getD [] ∧
    "cost_price" ∈ (migrate_products d).schema.products.getD [] ∧
    (∃ c, (migrate_products d).schema.products = some c) ∧
    (migrate_products d).schema.customers = d.schema.customers ∧
    (migrate_products d).schema.invoices = d.schema.invoices ∧
    (migrate_products d).schema.invoice_items = d.schema.invoice_items ∧
    (migrate_products d).schema.settings = d.schema.settings ∧
    (migrate_products d).schema.admin_users = d.schema.admin_users ∧
    (migrate_products d).settings = d.settings ∧
    (migrate_products d).admin_users = d.admin_users := by
  by_cases h1 : "stock" ∈ d.schema.products.getD [] <;>
    by_cases h2 : "cost_price" ∈ d.schema.products.getD []
  · obtain ⟨pc, hp⟩ : ∃ pc, d.schema.products = some pc := by
      cases hp : d.schema.products
      · rw [hp] at h1; simp at h1
      · exact ⟨_, rfl⟩
    rw [hp] at h1 h2
    simp only [Option.getD_some] at h1 h2
    simp [migrate_products, hp, h1, h2, List.mem_append]
  · obtain ⟨pc, hp⟩ : ∃ pc, d.schema.products = some pc := by
      cases hp : d.schema.products
      · rw [hp] at h1; simp at h1
      · exact ⟨_, rfl⟩
    rw [hp] at h1 h2
    simp only [Option.getD_some] at h1 h2
    simp [migrate_products, hp, h1, h2, List.mem_append]
  · simp [migrate_products, h1, h2, List.mem_append]
  · simp [migrate_products, h1, h2, List.mem_append]

/-- The products migration block is a no-op when both columns exist. -/
theorem migrate_products_id (d : DB)
    (h1 : "stock" ∈ d.schema.products.getD [])
    (h2 : "cost_price" ∈ d.schema.products.getD []) :
    migrate_products d = d := by
  simp [migrate_products, h1, h2]

/-- The invoice-items migration block guarantees the `discount` column,
keeps the table present, and touches nothing else. -/
theorem migrate_items_spec (d : DB) :
    "discount" ∈ (migrate_items d).schema.invoice_items.getD [] ∧
    (∃ c, (migrate_items d).schema.invoice_items = some c) ∧
    (migrate_items d).schema.customers = d.schema.customers ∧
    (migrate_items d).schema.products = d.schema.products ∧
    (migrate_items d).schema.invoices = d.schema.invoices ∧
    (migrate_items d).schema.settings = d.schema.settings ∧
    (migrate_items d).schema.admin_users = d.schema.admin_users ∧
    (migrate_items d).settings = d.settings ∧
    (migrate_items d).admin_users = d.admin_users := by
  by_cases h : "discount" ∈ d.schema.invoice_items.getD []
  · obtain ⟨c, hc⟩ : ∃ c, d.schema.invoice_items = some c := by
      cases hc : d.schema.invoice_items
      · rw [hc] at h; simp at h
      · exact ⟨_, rfl⟩
    rw [hc] at h
    simp only [Option.getD_some] at h
    simp [migrate_items, hc, h, List.mem_append]
  · simp [migrate_items, h, List.mem_append]

/-- The invoice-items migration block is a no-op when the column exists. -/
theorem migrate_items_id (d : DB)
    (h : "discount" ∈ d.schema.invoice_items.getD []) :
    migrate_items d = d := by
  simp [migrate_items, h]

/-- The settings migration block guarantees the `max_discount` column,
keeps the table present, and touches nothing else. -/
theorem migrate_settings_spec (d : DB) :
    "max_discount" ∈ (migrate_settings d).schema.settings.getD [] ∧
    (∃ c, (migrate_settings d).schema.settings = some c) ∧
    (migrate_settings d).schema.customers = d.schema.customers ∧
    (migrate_settings d).schema.products = d.schema.products ∧
    (migrate_settings d).schema.invoices = d.schema.invoices ∧
    (migrate_settings d).schema.invoice_items = d.schema.invoice_items ∧
    (migrate_settings d).schema.admin_users = d.schema.admin_users ∧
    (migrate_settings d).settings = d.settings ∧
    (migrate_settings d).admin_users = d.admin_users := by
  by_cases h : "max_discount" ∈ d.schema.settings.getD []
  · obtain ⟨c, hc⟩ : ∃ c, d.schema.settings = some c := by
      cases hc : d.schema.settings
      · rw [hc] at h; simp at h
      · exact ⟨_, rfl⟩
    rw [hc] at h
    simp only [Option.getD_some] at h
    simp [migrate_settings, hc, h, List.mem_append]
  · simp [migrate_settings, h, List.mem_append]

/-- The settings migration block is a no-op when the column exists. -/
theorem migrate_settings_id (d : DB)
    (h : "max_discount" ∈ d.schema.settings.getD []) :
    migrate_settings d = d := by
  simp [migrate_settings, h]

/-- Seeding leaves at least one admin row and touches neither schema nor
settings. -/
theorem seed_admin_spec (hash : String → String) (d : DB) :
    (seed_admin hash d).admin_users ≠ [] ∧
    (seed_admin hash d).schema = d.schema ∧
    (seed_admin hash d).settings = d.settings := by
  unfold seed_admin
  split
  · exact ⟨by simp, rfl, rfl⟩
  · next h =>
    refine ⟨?_, rfl, rfl⟩
    intro hnil
    exact h (by simp [hnil])

/-- Seeding is a no-op when an admin row already exists. -/
theorem seed_admin_id (hash : String → String) (d : DB)
    (h : d.admin_users ≠ []) :
    seed_admin hash d = d := by
  have hl : (d.admin_users.length == 0) = false := by
    refine beq_eq_false_iff_ne.mpr ?_
    simpa [List.length_eq_zero] using h
  simp [seed_admin, hl]

/-- `_ensure_settings_row` leaves the singleton present and touches
neither schema nor admin rows. -/
theorem ensure_settings_spec (d : DB) :
    (∃ s, (ensure_settings_row d).settings = some s) ∧
    (ensure_settings_row d).schema = d.schema ∧
    (ensure_settings_row d).admin_users = d.admin_users := by
  unfold ensure_settings_row
  cases h : d.settings <;> simp [h]

/-- `_ensure_settings_row` is a no-op when the row exists. -/
theorem ensure_settings_id (d : DB) (h : ∃ s, d.settings = some s) :
    ensure_settings_row d = d := by
  obtain ⟨s, hs⟩ := h
  simp [ensure_settings_row, hs]

/-- After initialization the store satisfies `Initialized`. -/
theorem initializeDB_initialized (hash : String → String) (db : DB) :
    Initialized (initializeDB hash db) := by
  obtain ⟨cc1, cc2, cc3, cc4, cc5, cc6, ccs, cca⟩ := create_tables_spec db
  obtain ⟨mp1, mp2, mp3, mp4, mp5, mp6, mp7, mp8, mp9, mp10⟩ :=
    migrate_products_spec (create_tables db)
  obtain ⟨mi1, mi2, mi3, mi4, mi5, mi6, mi7, mi8, mi9⟩ :=
    migrate_items_spec (migrate_products (create_tables db))
  obtain ⟨ms1, ms2, ms3, ms4, ms5, ms6, ms7, ms8, ms9⟩ :=
    migrate_settings_spec (migrate_items (migrate_products (create_tables db)))
  obtain ⟨sa1, sa2, sa3⟩ :=
    seed_admin_spec hash
      (migrate_settings (migrate_items (migrate_products (create_tables db))))
  obtain ⟨es1, es2, es3⟩ :=
    ensure_settings_spec
      (seed_admin hash
        (migrate_settings (migrate_items (migrate_products (create_tables db)))))
  unfold initializeDB migrate_schema
  refine ⟨?_, ?_, ?_, ?_, ?_, ?_, ?_, ?_, ?_, ?_, ?_, ?_⟩
  · rw [es2, sa2, ms3, mi3, mp4]; exact cc1
  · rw [es2, sa2, ms4, mi4]; exact mp3
  · rw [es2, sa2, ms5, mi5, mp5]; exact cc3
  · rw [es2, sa2, ms6]; exact mi2
  · rw [es2, sa2]; exact ms2
  · rw [es2, sa2, ms7, mi7, mp8]; exact cc6
  · rw [es2, sa2, ms4, mi4]; exact mp1
  · rw [es2, sa2, ms4, mi4]; exact mp2
  · rw [es2, sa2, ms6]; exact mi1
  · rw [es2, sa2]; exact ms1
  · exact es1
  · rw [es3]; exact sa1

/-- Initialization is a no-op on an already-initialized store. -/
theorem initializeDB_fixed (hash : String → String) (d : DB)
    (h : Initialized d) : initializeDB hash d = d := by
  obtain ⟨h1, h2, h3, h4, h5, h6, hstock, hcost, hdisc, hmax, hset, hadm⟩ := h
  have e1 : create_tables d = d := create_tables_id d h1 h2 h3 h4 h5 h6
  unfold initializeDB migrate_schema
  rw [e1, migrate_products_id d hstock hcost, migrate_items_id d hdisc,
    migrate_settings_id d hmax, seed_admin_id hash d hadm,
    ensure_settings_id d hset]

/-- C6: running initialization (table creation, additive migration,
seeding) a second time returns the store of the first run unchanged — in
particular an identical schema — and after either run exactly one
settings row exists and the admin seed is not duplicated. -/
theorem initialize_idempotent (hash : String → String) (db : DB) :
    initializeDB hash (initializeDB hash db) = initializeDB hash db ∧
    settingsCount (initializeDB hash db) = 1 ∧
    settingsCount (initializeDB hash (initializeDB hash db)) = 1 ∧
    (initializeDB hash (initializeDB hash db)).admin_users =
      (initializeDB hash db).admin_users := by
  have hA := initializeDB_initialized hash db
  have hB := initializeDB_fixed hash _ hA
  obtain ⟨-, -, -, -, -, -, -, -, -, -, ⟨s, hs⟩, -⟩ := hA
  refine ⟨hB, by simp [settingsCount, hs], ?_, by rw [hB]⟩
  rw [hB]
  simp [settingsCount, hs]

/-- Membership in a descending insertion. -/
theorem mem_insertDesc {x y : String} {l : List String} :
    y ∈ insertDesc x l ↔ y = x ∨ y ∈ l := by
  induction l with
  | nil => simp [insertDesc]
  | cons a tl ih =>
    simp only [insertDesc]
    split
    · simp
    · simp only [List.mem_cons, ih]
      tauto

/-- Sorting descending preserves membership. -/
theorem mem_sortDesc {y : String} {l : List String} :
    y ∈ sortDesc l ↔ y ∈ l := by
  induction l with
  | nil => simp [sortDesc]
  | cons a tl ih => simp [sortDesc, mem_insertDesc, ih]

/-- Every key produced by `GROUP BY` deduplication comes from some row. -/
theorem mem_dedup_aux (rows : List (String × ItemRow)) (acc : List String)
    (k : String)
    (h : k ∈ rows.foldl
      (fun acc r => if r.1 ∈ acc then acc else acc ++ [r.1]) acc) :
    k ∈ acc ∨ ∃ r ∈ rows, r.1 = k := by
  induction rows generalizing acc with
  | nil => exact Or.inl h
  | cons a tl ih =>
    simp only [List.foldl_cons] at h
    rcases ih _ h with hacc | ⟨r, hr, hk⟩
    · by_cases hmem : a.1 ∈ acc
      · rw [if_pos hmem] at hacc
        exact Or.inl hacc
      · rw [if_neg hmem] at hacc
        rcases List.mem_append.mp hacc with h1 | h1
        · exact Or.inl h1
        · simp only [List.mem_singleton] at h1
          exact Or.inr ⟨a, by simp, h1.symm⟩
    · exact Or.inr ⟨r, by simp [hr], hk⟩

/-- Every key in `dedupKeys rows` is the key of some row. -/
theorem mem_dedupKeys {k : String} {rows : List (String × ItemRow)}
    (h : k ∈ dedupKeys rows) : ∃ r ∈ rows, r.1 = k := by
  rcases mem_dedup_aux rows [] k h with h1 | h1
  · simp at h1
  · exact h1

/-- Every bucket an income query returns is the key of at least one joined
row, its gross is the bucket's sum of `quantity * unit_price`, and its net
is gross minus the bucket's cost sum minus its discount sum. -/
theorem group_income_mem (db : DB) (keep : InvoiceRow → Bool)
    (keyOf : InvoiceRow → String) (limit : Nat) (t : String × ℚ × ℚ)
    (ht : t ∈ group_income db keep keyOf limit) :
    (∃ r ∈ report_rows db keep keyOf, r.1 = t.1) ∧
    t.2.1 = (((report_rows db keep keyOf).filter
        (fun r => r.1 == t.1)).map (fun r => item_gross r.2)).sum ∧
    t.2.2 = t.2.1 -
      (((report_rows db keep keyOf).filter
        (fun r => r.1 == t.1)).map (fun r => item_cost db.products r.2)).sum -
      (((report_rows db keep keyOf).filter
        (fun r => r.1 == t.1)).map (fun r => item_discount_amt r.2)).sum := by
  simp only [group_income] at ht
  obtain ⟨k, hk, rfl⟩ := List.mem_map.mp ht
  have hk1 : k ∈ sortDesc (dedupKeys (report_rows db keep keyOf)) :=
    List.take_subset _ _ hk
  have hk2 : k ∈ dedupKeys (report_rows db keep keyOf) := mem_sortDesc.mp hk1
  obtain ⟨r, hr, hrk⟩ := mem_dedupKeys hk2
  refine ⟨⟨r, hr, hrk⟩, ?_, ?_⟩
  · simp only [List.map_map]
    rfl
  · simp only [List.map_map]
    rfl

/-- C9: for every bucket returned by the daily, monthly or yearly income
report, gross equals the bucket's sum of `quantity * unit_price`, net
equals gross minus the sum of `quantity * cost_price` minus the sum of
`quantity * unit_price * discount / 100`, and the bucket has at least one
joined invoice item — empty buckets are absent, never zero-filled. -/
theorem income_reports_bucket_sums (db : DB) (cutoff : String)
    (days months years : Nat) :
    (∀ t ∈ daily_income db cutoff days,
      (∃ r ∈ report_rows db (fun i => decide (cutoff ≤ i.header.invoice_date))
          (fun i => i.header.invoice_date), r.1 = t.1) ∧
      t.2.1 = (((report_rows db
          (fun i => decide (cutoff ≤ i.header.invoice_date))
          (fun i => i.header.invoice_date)).filter
            (fun r => r.1 == t.1)).map (fun r => item_gross r.2)).sum ∧
      t.2.2 = t.2.1 -
        (((report_rows db (fun i => decide (cutoff ≤ i.header.invoice_date))
          (fun i => i.header.invoice_date)).filter
            (fun r => r.1 == t.1)).map
              (fun r => item_cost db.products r.2)).sum -
        (((report_rows db (fun i => decide (cutoff ≤ i.header.invoice_date))
          (fun i => i.header.invoice_date)).filter
            (fun r => r.1 == t.1)).map (fun r => item_discount_amt r.2)).sum) ∧
    (∀ t ∈ monthly_income db months,
      (∃ r ∈ report_rows db (fun _ => true)
          (fun i => i.header.invoice_date.take 7), r.1 = t.1) ∧
      t.2.1 = (((report_rows db (fun _ => true)
          (fun i => i.header.invoice_date.take 7)).filter
            (fun r => r.1 == t.1)).map (fun r => item_gross r.2)).sum ∧
      t.2.2 = t.2.1 -
        (((report_rows db (fun _ => true)
          (fun i => i.header.invoice_date.take 7)).filter
            (fun r => r.1 == t.1)).map
              (fun r => item_cost db.products r.2)).sum -
        (((report_rows db (fun _ => true)
          (fun i => i.header.invoice_date.take 7)).filter
            (fun r => r.1 == t.1)).map (fun r => item_discount_amt r.2)).sum) ∧
    (∀ t ∈ yearly_income db years,
      (∃ r ∈ report_rows db (fun _ => true)
          (fun i => i.header.invoice_date.take 4), r.1 = t.1) ∧
      t.2.1 = (((report_rows db (fun _ => true)
          (fun i => i.header.invoice_date.take 4)).filter
            (fun r => r.1 == t.1)).map (fun r => item_gross r.2)).sum ∧
      t.2.2 = t.2.1 -
        (((report_rows db (fun _ => true)
          (fun i => i.header.invoice_date.take 4)).filter
            (fun r => r.1 == t.1)).map
              (fun r => item_cost db.products r.2)).sum -
        (((report_rows db (fun _ => true)
          (fun i => i.header.invoice_date.take 4)).filter
            (fun r => r.1 == t.1)).map (fun r => item_discount_amt r.2)).sum) := by
  refine ⟨?_, ?_, ?_⟩
  · intro t ht
    exact group_income_mem db _ _ days t ht
  · intro t ht
    exact group_income_mem db _ _ months t ht
  · intro t ht
    exact group_income_mem db _ _ years t ht

/-- Witness for C9 on `exDB2` (one invoice dated 2024-01-02 holding 2
Widgets at 10 with cost 4): each report returns the single bucket with
gross 20 and net 12, and the bucket is inhabited. -/
theorem income_reports_bucket_sums_witness :
    (("2024-01-02", (20 : ℚ), (12 : ℚ)) ∈ daily_income exDB2 "2024-01-01" 30 ∧
     ("2024-01", (20 : ℚ), (12 : ℚ)) ∈ monthly_income exDB2 12 ∧
     ("2024", (20 : ℚ), (12 : ℚ)) ∈ yearly_income exDB2 5) ∧
    (∃ r ∈ report_rows exDB2
        (fun i => decide (("2024-01-01" : String) ≤ i.header.invoice_date))
        (fun i => i.header.invoice_date), r.1 = "2024-01-02") ∧
    (∃ r ∈ report_rows exDB2 (fun _ => true)
        (fun i => i.header.invoice_date.take 7), r.1 = "2024-01") ∧
    (∃ r ∈ report_rows exDB2 (fun _ => true)
        (fun i => i.header.invoice_date.take 4), r.1 = "2024") := by
  have hle : (decide (("2024-01-01" : String) ≤ "2024-01-02")) = true :=
    decide_eq_true (by rw [String.le_iff_toList_le]; decide)
  have hle2 : (['2', '0', '2', '4', '-', '0', '1', '-', '0', '1'] : List Char) ≤
      ['2', '0', '2', '4', '-', '0', '1', '-', '0', '2'] := by decide
  have ht7 : ("2024-01-02" : String).take 7 = "2024-01" := by decide
  have ht4 : ("2024-01-02" : String).take 4 = "2024" := by decide
  have hd : daily_income exDB2 "2024-01-01" 30 = [("2024-01-02", 20, 12)] := by
    norm_num [daily_income, group_income, report_rows, dedupKeys, sortDesc,
      insertDesc, item_gross, item_cost, item_discount_amt, findProduct,
      exDB2, exWidget, exHeader, hle, hle2, List.filterMap, List.find?]
  have hm : monthly_income exDB2 12 = [("2024-01", 20, 12)] := by
    norm_num [monthly_income, group_income, report_rows, dedupKeys, sortDesc,
      insertDesc, item_gross, item_cost, item_discount_amt, findProduct,
      exDB2, exWidget, exHeader, ht7, List.filterMap, List.find?]
  have hy : yearly_income exDB2 5 = [("2024", 20, 12)] := by
    norm_num [yearly_income, group_income, report_rows, dedupKeys, sortDesc,
      insertDesc, item_gross, item_cost, item_discount_amt, findProduct,
      exDB2, exWidget, exHeader, ht4, List.filterMap, List.find?]
  have w1 : ("2024-01-02", (20 : ℚ), (12 : ℚ)) ∈
      daily_income exDB2 "2024-01-01" 30 := by rw [hd]; simp
  have w2 : ("2024-01", (20 : ℚ), (12 : ℚ)) ∈ monthly_income exDB2 12 := by
    rw [hm]; simp
  have w3 : ("2024", (20 : ℚ), (12 : ℚ)) ∈ yearly_income exDB2 5 := by
    rw [hy]; simp
  exact ⟨⟨w1, w2, w3⟩,
    ((income_reports_bucket_sums exDB2 "2024-01-01" 30 12 5).1 _ w1).1,
    ((income_reports_bucket_sums exDB2 "2024-01-01" 30 12 5).2.1 _ w2).1,
    ((income_reports_bucket_sums exDB2 "2024-01-01" 30 12 5).2.2 _ w3).1⟩

end NouraDB

